import Mathlib

/-!
Verification of the SMART CVD risk reduction core (`cvd_risk_app.py`).

Shallow embedding of the pure computational core of the application over `ℝ`:
the SMART 10-year risk model, the horizon conversions (5-year, lifetime),
the LDL therapy-efficacy projection, and the risk-reduction engine described
by the specification.  Python's `round(x, 1)` is modelled by `round1` below
(round to nearest multiple of 1/10, halves up, matching Mathlib's `round`).
-/

namespace CVD

/-- One-decimal rounding, modelling Python's `round(x, 1)`. -/
noncomputable def round1 (x : ℝ) : ℝ := (round (10 * x) : ℤ) / 10

/-- Drug → fractional LDL-lowering efficacy table `E` from
`calculate_ldl_projection` in the source.  A key absent from the table
yields `none` (the Python code tests `if drug in E`). -/
noncomputable def E (d : String) : Option ℝ :=
  if d = "Atorvastatin 80 mg" then some 0.50
  else if d = "Rosuvastatin 20 mg" then some 0.55
  else if d = "Ezetimibe 10 mg" then some 0.20
  else if d = "Bempedoic acid" then some 0.18
  else if d = "PCSK9 inhibitor" then some 0.60
  else if d = "Inclisiran" then some 0.55
  else none

/-- One iteration of the loop body of `calculate_ldl_projection`:
`if drug in E: ldl *= (1 - E[drug])`. -/
noncomputable def applyDrug (ldl : ℝ) (drug : String) : ℝ :=
  match E drug with
  | some eff => ldl * (1 - eff)
  | none => ldl

/-- `calculate_ldl_projection(baseline_ldl, pre_list, new_list)` from the
source: iterate the efficacy multiplication over `pre_list + new_list`,
then `return max(ldl, 0.5)`. -/
noncomputable def calculate_ldl_projection (baseline_ldl : ℝ)
    (pre_list new_list : List String) : ℝ :=
  max ((pre_list ++ new_list).foldl applyDrug baseline_ldl) 0.5

/-- `estimate_10y_risk` from the source: SMART 10-year risk, capped at 95%. -/
noncomputable def estimate_10y_risk (age : ℝ) (sex : String) (sbp tc hdl : ℝ)
    (smoker diabetes : Bool) (egfr crp vasc : ℝ) : ℝ :=
  let sex_v : ℝ := if sex = "Male" then 1 else 0
  let smoke_v : ℝ := if smoker then 1 else 0
  let dm_v : ℝ := if diabetes then 1 else 0
  let crp_l : ℝ := Real.log (crp + 1)
  let lp : ℝ := 0.064 * age + 0.34 * sex_v + 0.02 * sbp + 0.25 * tc
    - 0.25 * hdl + 0.44 * smoke_v + 0.51 * dm_v
    - 0.2 * (egfr / 10) + 0.25 * crp_l + 0.4 * vasc
  let raw : ℝ := 1 - (0.900 : ℝ) ^ Real.exp (lp - 5.8)
  let pct : ℝ := raw * 100
  round1 (min pct 95.0)

/-- `convert_5yr` from the source: converts a 10-year probability to
5-year, capped at 95%. -/
noncomputable def convert_5yr (r10 : ℝ) : ℝ :=
  let p : ℝ := min r10 95.0 / 100
  let p5 : ℝ := 1 - (1 - p) ^ (0.5 : ℝ)
  round1 (min (p5 * 100) 95.0)

/-- `estimate_lifetime_risk` from the source: risk to age 85, capped at 95%. -/
noncomputable def estimate_lifetime_risk (age r10 : ℝ) : ℝ :=
  let years : ℝ := max (85 - age) 0
  let p10 : ℝ := min r10 95.0 / 100
  let annual : ℝ := 1 - (1 - p10) ^ ((1 : ℝ) / 10)
  let lt : ℝ := 1 - (1 - annual) ^ years
  round1 (min (lt * 100) 95.0)

/-! ## Rounding lemmas -/

lemma round1_mono {x y : ℝ} (h : x ≤ y) : round1 x ≤ round1 y := by
  unfold round1
  have h10 : (10 : ℝ) * x ≤ 10 * y := by linarith
  have hr : round (10 * x) ≤ round (10 * y) := by
    rw [round_eq, round_eq]
    exact Int.floor_le_floor (by linarith)
  have : ((round (10 * x) : ℤ) : ℝ) ≤ ((round (10 * y) : ℤ) : ℝ) := by
    exact_mod_cast hr
  linarith

lemma round1_intdiv (k : ℤ) : round1 ((k : ℝ) / 10) = (k : ℝ) / 10 := by
  unfold round1
  have : (10 : ℝ) * ((k : ℝ) / 10) = (k : ℝ) := by ring
  rw [this, round_intCast]

lemma round1_95 : round1 (95 : ℝ) = 95 := by
  have h := round1_intdiv 950
  norm_num at h
  exact h

lemma round1_zero : round1 (0 : ℝ) = 0 := by
  have h := round1_intdiv 0
  norm_num at h
  exact h

lemma round1_nonneg {x : ℝ} (h : 0 ≤ x) : 0 ≤ round1 x := by
  have := round1_mono h
  rwa [round1_zero] at this

lemma round1_le_95 {x : ℝ} (h : x ≤ 95) : round1 x ≤ 95 := by
  have := round1_mono h
  rwa [round1_95] at this

lemma round1_tenth : round1 ((1 : ℝ) / 20) = 1 / 10 := by
  unfold round1
  have h : (10 : ℝ) * (1 / 20) = 2⁻¹ := by norm_num
  rw [h, round_two_inv]
  norm_num

/-! ## LDL projection: factor form -/

/-- The multiplicative factor one drug contributes in the loop of
`calculate_ldl_projection`. -/
noncomputable def drugFactor (d : String) : ℝ :=
  match E d with
  | some eff => 1 - eff
  | none => 1

lemma applyDrug_eq (ldl : ℝ) (d : String) : applyDrug ldl d = ldl * drugFactor d := by
  unfold applyDrug drugFactor
  cases E d <;> simp

lemma E_bounds {d : String} {eff : ℝ} (h : E d = some eff) : 0 ≤ eff ∧ eff ≤ 1 := by
  unfold E at h
  split_ifs at h <;> injection h with h <;> rw [← h] <;> constructor <;> norm_num

lemma drugFactor_mem (d : String) : 0 ≤ drugFactor d ∧ drugFactor d ≤ 1 := by
  unfold drugFactor
  rcases hE : E d with _ | eff
  · constructor <;> norm_num
  · obtain ⟨h0, h1⟩ := E_bounds hE
    constructor <;> simp <;> linarith

lemma foldl_applyDrug_eq (l : List String) (a : ℝ) :
    l.foldl applyDrug a = a * (l.map drugFactor).prod := by
  induction l generalizing a with
  | nil => simp
  | cons x xs ih =>
      simp only [List.foldl_cons, List.map_cons, List.prod_cons, applyDrug_eq]
      rw [ih]
      ring

lemma drugFactors_prod_mem (l : List String) :
    0 ≤ (l.map drugFactor).prod ∧ (l.map drugFactor).prod ≤ 1 := by
  induction l with
  | nil => simp
  | cons x xs ih =>
      obtain ⟨h0, h1⟩ := ih
      obtain ⟨f0, f1⟩ := drugFactor_mem x
      simp only [List.map_cons, List.prod_cons]
      constructor
      · exact mul_nonneg f0 h0
      · calc drugFactor x * (xs.map drugFactor).prod ≤ 1 * 1 :=
            mul_le_mul f1 h1 h0 zero_le_one
        _ = 1 := by ring

/-! ## The risk-reduction engine, modelled from the spec -/

/-- Time horizon over which risk is expressed (spec §6). -/
inductive Horizon
  | fiveYr
  | tenYr
  | lifetime
deriving DecidableEq

/-- A static intervention-catalog entry (spec §3): name and fixed
absolute-risk-reduction values per horizon. -/
structure InterventionRecord where
  name : String
  arr_lifetime : ℝ
  arr_5yr : ℝ

/-- Result record of the risk-reduction engine (spec §3). -/
structure ReductionResult where
  baselineRisk : ℝ
  finalRisk : ℝ
  arr : ℝ
  rrr : ℝ

/-- Modelled from the spec: `arr_for_horizon` of §4.4 step 2 — look an
intervention up in the catalog and pick `arr_5yr` if horizon = 5yr, else
`arr_lifetime`; a name absent from the catalog is a no-op (spec §7), here
an ARR of 0.  The concrete 11-entry catalog is not present in `src`, so
the catalog is a parameter. -/
noncomputable def arr_for_horizon (catalog : List InterventionRecord)
    (h : Horizon) (nm : String) : ℝ :=
  match catalog.find? (fun r => r.name == nm) with
  | some r => if h = Horizon.fiveYr then r.arr_5yr else r.arr_lifetime
  | none => 0

/-- Modelled from the spec: `RiskReductionEngine.reduce` of §4.4 is not
implemented in `src` (the Results tab only computes hard-coded
placeholders), so it is modelled from the spec's five-step algorithm:
multiplicative composition of intervention RRRs, the capped LDL effect
`min(22·ldlDelta, 35)` and BP effect `min(15·ΔSBP/10, 20)` (both clamped
at 0 below, §4.4 last sentence), then rounded finalRisk, ARR, and RRR
with the zero-baseline guard of §4.4 step 5. -/
noncomputable def reduce (catalog : List InterventionRecord) (baselineRisk : ℝ)
    (interventions : List String) (horizon : Horizon)
    (ldlBaseline ldlFinal sbpCurrent sbpTarget : ℝ) : ReductionResult :=
  let remaining0 : ℝ := baselineRisk / 100
  let remaining1 : ℝ := interventions.foldl
    (fun r i => r * (1 - arr_for_horizon catalog horizon i / 100)) remaining0
  let ldlRRR : ℝ := max (min (22 * (ldlBaseline - ldlFinal)) 35) 0
  let remaining2 : ℝ := remaining1 * (1 - ldlRRR / 100)
  let bpRRR : ℝ := max (min (15 * ((sbpCurrent - sbpTarget) / 10)) 20) 0
  let remaining3 : ℝ := remaining2 * (1 - bpRRR / 100)
  let finalRisk : ℝ := round1 (remaining3 * 100)
  let arr : ℝ := round1 (baselineRisk - finalRisk)
  let rrr : ℝ := if 0 < baselineRisk then round1 (arr / baselineRisk * 100) else 0
  ⟨baselineRisk, finalRisk, arr, rrr⟩

lemma foldl_mul_eq (f : String → ℝ) (l : List String) (a : ℝ) :
    l.foldl (fun r i => r * f i) a = a * (l.map f).prod := by
  induction l generalizing a with
  | nil => simp
  | cons x xs ih =>
      simp only [List.foldl_cons, List.map_cons, List.prod_cons]
      rw [ih]
      ring

/-! ## The 10-year risk as a function of the linear predictor -/

/-- The risk transform applied to the linear predictor in
`estimate_10y_risk`. -/
noncomputable def riskOfLp (lp : ℝ) : ℝ :=
  round1 (min ((1 - (0.900 : ℝ) ^ Real.exp (lp - 5.8)) * 100) 95.0)

/-- The linear predictor `lp` of `estimate_10y_risk`, on already-encoded
0/1 indicator values. -/
noncomputable def lpSMART (age sex_v sbp tc hdl smoke_v dm_v egfr crp vasc : ℝ) : ℝ :=
  0.064 * age + 0.34 * sex_v + 0.02 * sbp + 0.25 * tc
    - 0.25 * hdl + 0.44 * smoke_v + 0.51 * dm_v
    - 0.2 * (egfr / 10) + 0.25 * Real.log (crp + 1) + 0.4 * vasc

lemma estimate_eq_riskOfLp (age : ℝ) (sex : String) (sbp tc hdl : ℝ)
    (smoker diabetes : Bool) (egfr crp vasc : ℝ) :
    estimate_10y_risk age sex sbp tc hdl smoker diabetes egfr crp vasc =
      riskOfLp (lpSMART age (if sex = "Male" then 1 else 0) sbp tc hdl
        (if smoker then 1 else 0) (if diabetes then 1 else 0) egfr crp vasc) := rfl

lemma riskOfLp_mono {a b : ℝ} (h : a ≤ b) : riskOfLp a ≤ riskOfLp b := by
  unfold riskOfLp
  apply round1_mono
  apply min_le_min _ le_rfl
  have he : Real.exp (a - 5.8) ≤ Real.exp (b - 5.8) := Real.exp_le_exp.mpr (by linarith)
  have hp : (0.900 : ℝ) ^ Real.exp (b - 5.8) ≤ (0.900 : ℝ) ^ Real.exp (a - 5.8) :=
    Real.rpow_le_rpow_of_exponent_ge (by norm_num) (by norm_num) he
  nlinarith

lemma riskOfLp_nonneg (lp : ℝ) : 0 ≤ riskOfLp lp := by
  unfold riskOfLp
  apply round1_nonneg
  have h1 : (0.900 : ℝ) ^ Real.exp (lp - 5.8) ≤ 1 :=
    Real.rpow_le_one (by norm_num) (by norm_num) (Real.exp_pos _).le
  have h2 : (0 : ℝ) ≤ (1 - (0.900 : ℝ) ^ Real.exp (lp - 5.8)) * 100 := by nlinarith
  exact le_min h2 (by norm_num)

lemma riskOfLp_le_95 (lp : ℝ) : riskOfLp lp ≤ 95 := by
  unfold riskOfLp
  exact round1_le_95 (le_of_le_of_eq (min_le_right _ _) (by norm_num))

/-! ## Let-free forms of the conversion functions -/

lemma convert_5yr_eq (r10 : ℝ) :
    convert_5yr r10 =
      round1 (min ((1 - (1 - min r10 95.0 / 100) ^ (0.5 : ℝ)) * 100) 95.0) := rfl

lemma estimate_lifetime_risk_eq (age r10 : ℝ) :
    estimate_lifetime_risk age r10 =
      round1 (min ((1 - (1 - (1 - (1 - min r10 95.0 / 100) ^ ((1 : ℝ) / 10)))
        ^ (max (85 - age) 0)) * 100) 95.0) := rfl

/-! ## C1: the 10-year risk formula -/

/-- The RiskModel formula exactly as spec §4.1 words it (reference
definition written from the spec's text, for comparison with the
source's `estimate_10y_risk`). -/
noncomputable def spec_estimate_10y_risk (age : ℝ) (sex : String) (sbp tc hdl : ℝ)
    (smoker diabetes : Bool) (egfr crp vasc : ℝ) : ℝ :=
  let lp : ℝ := 0.064 * age + 0.34 * (if sex = "Male" then 1 else 0) + 0.02 * sbp
    + 0.25 * tc - 0.25 * hdl + 0.44 * (if smoker then 1 else 0)
    + 0.51 * (if diabetes then 1 else 0) - 0.2 * (egfr / 10)
    + 0.25 * Real.log (crp + 1) + 0.4 * vasc
  round1 (min (100 * (1 - (0.900 : ℝ) ^ Real.exp (lp - 5.8))) 95.0)

/-- C1: for every profile inside the clinical bounds, `estimate_10y_risk`
equals round(min(100·(1 − 0.900^exp(lp − 5.8)), 95.0), 1) with the spec's
linear predictor lp. -/
theorem C1_estimate_matches_spec_formula
    (age : ℝ) (sex : String) (sbp tc hdl : ℝ) (smoker diabetes : Bool)
    (egfr crp vasc : ℝ)
    (hage : 30 ≤ age ∧ age ≤ 90) (hsex : sex = "Male" ∨ sex = "Female")
    (hsbp : 90 ≤ sbp ∧ sbp ≤ 200) (htc : 2 ≤ tc ∧ tc ≤ 10)
    (hhdl : 0.5 ≤ hdl ∧ hdl ≤ 3) (hegfr : 15 ≤ egfr ∧ egfr ≤ 120)
    (hcrp : 0.1 ≤ crp ∧ crp ≤ 20) (hvasc : 0 ≤ vasc ∧ vasc ≤ 3) :
    estimate_10y_risk age sex sbp tc hdl smoker diabetes egfr crp vasc =
      spec_estimate_10y_risk age sex sbp tc hdl smoker diabetes egfr crp vasc := by
  show round1 _ = round1 _
  congr 1
  congr 1
  ring

/-- Witness for C1 at the concrete profile of spec §8's worked example. -/
theorem C1_witness :
    (((30:ℝ) ≤ 60 ∧ (60:ℝ) ≤ 90) ∧ ("Male" = "Male" ∨ "Male" = "Female") ∧
      ((90:ℝ) ≤ 145 ∧ (145:ℝ) ≤ 200) ∧ ((2:ℝ) ≤ 5 ∧ (5:ℝ) ≤ 10) ∧
      ((0.5:ℝ) ≤ 1 ∧ (1:ℝ) ≤ 3) ∧ ((15:ℝ) ≤ 80 ∧ (80:ℝ) ≤ 120) ∧
      ((0.1:ℝ) ≤ 2 ∧ (2:ℝ) ≤ 20) ∧ ((0:ℝ) ≤ 1 ∧ (1:ℝ) ≤ 3)) ∧
    estimate_10y_risk 60 "Male" 145 5 1 false false 80 2 1 =
      spec_estimate_10y_risk 60 "Male" 145 5 1 false false 80 2 1 :=
  ⟨⟨by norm_num, Or.inl rfl, by norm_num, by norm_num, by norm_num, by norm_num,
      by norm_num, by norm_num⟩,
    C1_estimate_matches_spec_formula 60 "Male" 145 5 1 false false 80 2 1
      (by norm_num) (Or.inl rfl) (by norm_num) (by norm_num) (by norm_num)
      (by norm_num) (by norm_num) (by norm_num)⟩

/-! ## C6 and C7: the LDL projection -/

/-- C6: for baseline LDL ≥ 0.5 the projection lies in [0.5, baseline], and
a key absent from the efficacy table is ignored. -/
theorem C6_ldl_projection_range (l : ℝ) (pre new : List String) (hl : 0.5 ≤ l) :
    (0.5 ≤ calculate_ldl_projection l pre new ∧
      calculate_ldl_projection l pre new ≤ l) ∧
    (∀ d, E d = none →
      calculate_ldl_projection l pre (new ++ [d]) =
        calculate_ldl_projection l pre new) := by
  constructor
  · constructor
    · exact le_max_right _ _
    · apply max_le _ hl
      rw [foldl_applyDrug_eq]
      obtain ⟨h0, h1⟩ := drugFactors_prod_mem (pre ++ new)
      nlinarith
  · intro d hd
    unfold calculate_ldl_projection
    rw [← List.append_assoc, List.foldl_append]
    simp [applyDrug, hd]

/-- Witness for C6 at a concrete baseline and drug lists. -/
theorem C6_witness :
    (0.5 : ℝ) ≤ 3.5 ∧
    ((0.5 ≤ calculate_ldl_projection 3.5 ["Ezetimibe 10 mg"] ["PCSK9 inhibitor"] ∧
      calculate_ldl_projection 3.5 ["Ezetimibe 10 mg"] ["PCSK9 inhibitor"] ≤ 3.5) ∧
    (∀ d, E d = none →
      calculate_ldl_projection 3.5 ["Ezetimibe 10 mg"] (["PCSK9 inhibitor"] ++ [d]) =
        calculate_ldl_projection 3.5 ["Ezetimibe 10 mg"] ["PCSK9 inhibitor"])) :=
  ⟨by norm_num,
    C6_ldl_projection_range 3.5 ["Ezetimibe 10 mg"] ["PCSK9 inhibitor"] (by norm_num)⟩

/-- C7: the projection applies full listed efficacy uniformly regardless of
pre-existing/new status, is invariant under permutation of the drugs, and
maps (3.5, [], [Atorvastatin 80 mg]) to 1.75 — the full-efficacy policy,
not the half-weight 2.625 variant. -/
theorem C7_ldl_projection_policy :
    (∀ (l : ℝ) (pre new : List String),
      calculate_ldl_projection l pre new =
        calculate_ldl_projection l [] (pre ++ new)) ∧
    (∀ (l : ℝ) (pre new pre' new' : List String),
      (pre ++ new).Perm (pre' ++ new') →
      calculate_ldl_projection l pre new = calculate_ldl_projection l pre' new') ∧
    calculate_ldl_projection 3.5 [] ["Atorvastatin 80 mg"] = 1.75 := by
  refine ⟨?_, ?_, ?_⟩
  · intro l pre new
    unfold calculate_ldl_projection
    rw [List.nil_append]
  · intro l pre new pre' new' hperm
    unfold calculate_ldl_projection
    rw [foldl_applyDrug_eq, foldl_applyDrug_eq, (hperm.map drugFactor).prod_eq]
  · unfold calculate_ldl_projection
    simp [applyDrug, E]
    norm_num

/-- Witness for C7: the permutation clause at a concrete pair of drug lists. -/
theorem C7_witness :
    (["Atorvastatin 80 mg", "Ezetimibe 10 mg"] : List String).Perm
        ["Ezetimibe 10 mg", "Atorvastatin 80 mg"] ∧
    calculate_ldl_projection 3.0 ["Atorvastatin 80 mg"] ["Ezetimibe 10 mg"] =
      calculate_ldl_projection 3.0 ["Ezetimibe 10 mg"] ["Atorvastatin 80 mg"] := by
  constructor
  · decide
  · exact C7_ldl_projection_policy.2.1 3.0 ["Atorvastatin 80 mg"] ["Ezetimibe 10 mg"]
      ["Ezetimibe 10 mg"] ["Atorvastatin 80 mg"] (by decide)

/-! ## C3: range and monotonicity of the 10-year risk -/

/-- C3: on valid profiles the 10-year risk lies in [0, 95], and varying one
covariate alone it is non-decreasing in age, SBP, total cholesterol,
smoker, diabetes and vascular count, and non-increasing in HDL and eGFR. -/
theorem C3_estimate_range_and_monotone
    (age sbp tc hdl egfr crp vasc age' sbp' tc' hdl' egfr' vasc' : ℝ)
    (sex : String) (smoker diabetes : Bool)
    (hage : 30 ≤ age ∧ age ≤ 90) (hsbp : 90 ≤ sbp ∧ sbp ≤ 200)
    (htc : 2 ≤ tc ∧ tc ≤ 10) (hhdl : 0.5 ≤ hdl ∧ hdl ≤ 3)
    (hegfr : 15 ≤ egfr ∧ egfr ≤ 120) (hcrp : 0.1 ≤ crp ∧ crp ≤ 20)
    (hvasc : 0 ≤ vasc ∧ vasc ≤ 3)
    (hage' : age ≤ age' ∧ age' ≤ 90) (hsbp' : sbp ≤ sbp' ∧ sbp' ≤ 200)
    (htc' : tc ≤ tc' ∧ tc' ≤ 10) (hhdl' : hdl ≤ hdl' ∧ hdl' ≤ 3)
    (hegfr' : egfr ≤ egfr' ∧ egfr' ≤ 120) (hvasc' : vasc ≤ vasc' ∧ vasc' ≤ 3) :
    (0 ≤ estimate_10y_risk age sex sbp tc hdl smoker diabetes egfr crp vasc ∧
      estimate_10y_risk age sex sbp tc hdl smoker diabetes egfr crp vasc ≤ 95) ∧
    estimate_10y_risk age sex sbp tc hdl smoker diabetes egfr crp vasc ≤
      estimate_10y_risk age' sex sbp tc hdl smoker diabetes egfr crp vasc ∧
    estimate_10y_risk age sex sbp tc hdl smoker diabetes egfr crp vasc ≤
      estimate_10y_risk age sex sbp' tc hdl smoker diabetes egfr crp vasc ∧
    estimate_10y_risk age sex sbp tc hdl smoker diabetes egfr crp vasc ≤
      estimate_10y_risk age sex sbp tc' hdl smoker diabetes egfr crp vasc ∧
    estimate_10y_risk age sex sbp tc hdl false diabetes egfr crp vasc ≤
      estimate_10y_risk age sex sbp tc hdl true diabetes egfr crp vasc ∧
    estimate_10y_risk age sex sbp tc hdl smoker false egfr crp vasc ≤
      estimate_10y_risk age sex sbp tc hdl smoker true egfr crp vasc ∧
    estimate_10y_risk age sex sbp tc hdl smoker diabetes egfr crp vasc ≤
      estimate_10y_risk age sex sbp tc hdl smoker diabetes egfr crp vasc' ∧
    estimate_10y_risk age sex sbp tc hdl' smoker diabetes egfr crp vasc ≤
      estimate_10y_risk age sex sbp tc hdl smoker diabetes egfr crp vasc ∧
    estimate_10y_risk age sex sbp tc hdl smoker diabetes egfr' crp vasc ≤
      estimate_10y_risk age sex sbp tc hdl smoker diabetes egfr crp vasc := by
  simp only [estimate_eq_riskOfLp]
  refine ⟨⟨riskOfLp_nonneg _, riskOfLp_le_95 _⟩, ?_, ?_, ?_, ?_, ?_, ?_, ?_, ?_⟩
  all_goals apply riskOfLp_mono
  all_goals unfold lpSMART
  · linarith [hage'.1]
  · linarith [hsbp'.1]
  · linarith [htc'.1]
  · norm_num
  · norm_num
  · linarith [hvasc'.1]
  · linarith [hhdl'.1]
  · linarith [hegfr'.1]

/-- Witness for C3 at a concrete pair of profiles. -/
theorem C3_witness :
    (((30:ℝ) ≤ 60 ∧ (60:ℝ) ≤ 90) ∧ ((90:ℝ) ≤ 140 ∧ (140:ℝ) ≤ 200) ∧
      ((2:ℝ) ≤ 5.2 ∧ (5.2:ℝ) ≤ 10) ∧ ((0.5:ℝ) ≤ 1.3 ∧ (1.3:ℝ) ≤ 3) ∧
      ((15:ℝ) ≤ 90 ∧ (90:ℝ) ≤ 120) ∧ ((0.1:ℝ) ≤ 2.5 ∧ (2.5:ℝ) ≤ 20) ∧
      ((0:ℝ) ≤ 1 ∧ (1:ℝ) ≤ 3) ∧
      ((60:ℝ) ≤ 70 ∧ (70:ℝ) ≤ 90) ∧ ((140:ℝ) ≤ 150 ∧ (150:ℝ) ≤ 200) ∧
      ((5.2:ℝ) ≤ 6 ∧ (6:ℝ) ≤ 10) ∧ ((1.3:ℝ) ≤ 2 ∧ (2:ℝ) ≤ 3) ∧
      ((90:ℝ) ≤ 100 ∧ (100:ℝ) ≤ 120) ∧ ((1:ℝ) ≤ 2 ∧ (2:ℝ) ≤ 3)) ∧
    (0 ≤ estimate_10y_risk 60 "Female" 140 5.2 1.3 false false 90 2.5 1 ∧
      estimate_10y_risk 60 "Female" 140 5.2 1.3 false false 90 2.5 1 ≤ 95) ∧
    estimate_10y_risk 60 "Female" 140 5.2 1.3 false false 90 2.5 1 ≤
      estimate_10y_risk 70 "Female" 140 5.2 1.3 false false 90 2.5 1 :=
  ⟨⟨by norm_num, by norm_num, by norm_num, by norm_num, by norm_num, by norm_num,
      by norm_num, by norm_num, by norm_num, by norm_num, by norm_num, by norm_num,
      by norm_num⟩,
    (C3_estimate_range_and_monotone 60 140 5.2 1.3 90 2.5 1 70 150 6 2 100 2
        "Female" false false (by norm_num) (by norm_num) (by norm_num) (by norm_num)
        (by norm_num) (by norm_num) (by norm_num) (by norm_num) (by norm_num)
        (by norm_num) (by norm_num) (by norm_num) (by norm_num)).1,
    (C3_estimate_range_and_monotone 60 140 5.2 1.3 90 2.5 1 70 150 6 2 100 2
        "Female" false false (by norm_num) (by norm_num) (by norm_num) (by norm_num)
        (by norm_num) (by norm_num) (by norm_num) (by norm_num) (by norm_num)
        (by norm_num) (by norm_num) (by norm_num) (by norm_num)).2.1⟩

/-! ## C10: strict positivity of the rounded risk under UI bounds -/

lemma exp_five_lt_149 : Real.exp 5 < 149 := by
  have h1 : Real.exp 1 < 2.7182818286 := Real.exp_one_lt_d9
  have h2 : Real.exp 5 = Real.exp 1 ^ (5 : ℕ) := by
    rw [← Real.exp_nat_mul]
    norm_num
  rw [h2]
  calc Real.exp 1 ^ (5 : ℕ) < 2.7182818286 ^ (5 : ℕ) :=
        pow_lt_pow_left h1 (Real.exp_pos 1).le (by norm_num)
    _ < 149 := by norm_num

lemma riskOfLp_ge_tenth {lp : ℝ} (h : 1.07 ≤ lp) : 0.1 ≤ riskOfLp lp := by
  have he : (1 : ℝ) / 149 ≤ Real.exp (lp - 5.8) := by
    have h1 : Real.exp (-5) ≤ Real.exp (lp - 5.8) := Real.exp_le_exp.mpr (by linarith)
    have h2 : (1 : ℝ) / 149 ≤ 1 / Real.exp 5 :=
      one_div_le_one_div_of_le (Real.exp_pos 5) exp_five_lt_149.le
    rw [Real.exp_neg] at h1
    rw [← one_div] at h1
    linarith
  have hrpow : (0.900 : ℝ) ^ Real.exp (lp - 5.8) ≤ 1490 / 1491 := by
    rw [Real.rpow_def_of_pos (by norm_num : (0 : ℝ) < 0.900)]
    have hlog9 : Real.log 0.900 ≤ -0.1 := by
      have := Real.log_le_sub_one_of_pos (by norm_num : (0 : ℝ) < 0.900)
      linarith
    have hprod : Real.log 0.900 * Real.exp (lp - 5.8) ≤ -(1 / 1490) := by
      have ha : Real.log 0.900 * Real.exp (lp - 5.8) ≤ Real.log 0.900 * (1 / 149) :=
        mul_le_mul_of_nonpos_left he (by linarith)
      have hb : Real.log 0.900 * (1 / 149) ≤ (-0.1) * (1 / 149) :=
        mul_le_mul_of_nonneg_right hlog9 (by norm_num)
      linarith
    have hc : Real.exp (Real.log 0.900 * Real.exp (lp - 5.8)) ≤ Real.exp (-(1 / 1490)) :=
      Real.exp_le_exp.mpr hprod
    have hd : Real.exp (-(1 / 1490)) ≤ 1490 / 1491 := by
      rw [Real.exp_neg]
      have h1 : (1 : ℝ) + 1 / 1490 ≤ Real.exp (1 / 1490) := by
        have := Real.add_one_le_exp ((1 : ℝ) / 1490)
        linarith
      have h2 : (1 : ℝ) / Real.exp (1 / 1490) ≤ 1 / (1 + 1 / 1490) :=
        one_div_le_one_div_of_le (by norm_num) h1
      rw [← one_div]
      calc (1 : ℝ) / Real.exp (1 / 1490) ≤ 1 / (1 + 1 / 1490) := h2
        _ = 1490 / 1491 := by norm_num
    linarith
  have hmin : (1 / 20 : ℝ) ≤ min ((1 - (0.900 : ℝ) ^ Real.exp (lp - 5.8)) * 100) 95.0 := by
    apply le_min _ (by norm_num)
    nlinarith
  unfold riskOfLp
  have := round1_mono hmin
  rw [round1_tenth] at this
  linarith

/-- C10: under the UI input bounds the rounded 10-year risk is at least
0.1, so the RRR division `arr10/risk10` in the Results tab cannot divide
by zero. -/
theorem C10_estimate_at_least_tenth
    (age : ℝ) (sex : String) (sbp tc hdl : ℝ) (smoker diabetes : Bool)
    (egfr crp vasc : ℝ)
    (hage : 30 ≤ age ∧ age ≤ 90) (hsbp : 90 ≤ sbp ∧ sbp ≤ 200)
    (htc : 2 ≤ tc ∧ tc ≤ 10) (hhdl : 0.5 ≤ hdl ∧ hdl ≤ 3)
    (hegfr : 15 ≤ egfr ∧ egfr ≤ 120) (hcrp : 0.1 ≤ crp ∧ crp ≤ 20)
    (hvasc : 0 ≤ vasc ∧ vasc ≤ 3) :
    0.1 ≤ estimate_10y_risk age sex sbp tc hdl smoker diabetes egfr crp vasc := by
  rw [estimate_eq_riskOfLp]
  apply riskOfLp_ge_tenth
  have hlog : 0 ≤ Real.log (crp + 1) := Real.log_nonneg (by linarith [hcrp.1])
  have hsx : 0 ≤ (if sex = "Male" then (1 : ℝ) else 0) := by split <;> norm_num
  have hsm : 0 ≤ (if smoker then (1 : ℝ) else 0) := by split <;> norm_num
  have hdm : 0 ≤ (if diabetes then (1 : ℝ) else 0) := by split <;> norm_num
  unfold lpSMART
  nlinarith [hage.1, hsbp.1, htc.1, hhdl.2, hegfr.2, hvasc.1]

/-- Witness for C10 at the minimal-risk corner of the UI bounds. -/
theorem C10_witness :
    (((30:ℝ) ≤ 30 ∧ (30:ℝ) ≤ 90) ∧ ((90:ℝ) ≤ 90 ∧ (90:ℝ) ≤ 200) ∧
      ((2:ℝ) ≤ 2 ∧ (2:ℝ) ≤ 10) ∧ ((0.5:ℝ) ≤ 3 ∧ (3:ℝ) ≤ 3) ∧
      ((15:ℝ) ≤ 120 ∧ (120:ℝ) ≤ 120) ∧ ((0.1:ℝ) ≤ 0.1 ∧ (0.1:ℝ) ≤ 20) ∧
      ((0:ℝ) ≤ 0 ∧ (0:ℝ) ≤ 3)) ∧
    0.1 ≤ estimate_10y_risk 30 "Female" 90 2 3 false false 120 0.1 0 :=
  ⟨⟨by norm_num, by norm_num, by norm_num, by norm_num, by norm_num, by norm_num,
      by norm_num⟩,
    C10_estimate_at_least_tenth 30 "Female" 90 2 3 false false 120 0.1 0
      (by norm_num) (by norm_num) (by norm_num) (by norm_num) (by norm_num)
      (by norm_num) (by norm_num)⟩

/-! ## C5: the lifetime conversion -/

/-- C5: for a fixed 10-year risk in [0, 95], the lifetime risk is
non-increasing in age, and is 0 for every age ≥ 85. -/
theorem C5_lifetime_monotone_age (a1 a2 age p10 : ℝ)
    (ha1 : 30 ≤ a1) (h12 : a1 ≤ a2) (ha2 : a2 ≤ 90)
    (hp0 : 0 ≤ p10) (hp95 : p10 ≤ 95) (h85 : 85 ≤ age) :
    estimate_lifetime_risk a2 p10 ≤ estimate_lifetime_risk a1 p10 ∧
    estimate_lifetime_risk age p10 = 0 := by
  constructor
  · rw [estimate_lifetime_risk_eq, estimate_lifetime_risk_eq]
    apply round1_mono
    apply min_le_min _ le_rfl
    have hminle : min p10 95.0 ≤ 95 := by
      have := min_le_right p10 95.0
      norm_num at this ⊢
    have hmin0 : 0 ≤ min p10 95.0 := le_min hp0 (by norm_num)
    have hp1 : (0 : ℝ) < 1 - min p10 95.0 / 100 := by linarith
    have hp2 : 1 - min p10 95.0 / 100 ≤ 1 := by linarith
    have hbase :
        (1 : ℝ) - (1 - (1 - min p10 95.0 / 100) ^ ((1 : ℝ) / 10)) =
          (1 - min p10 95.0 / 100) ^ ((1 : ℝ) / 10) := by ring
    rw [hbase]
    set b : ℝ := (1 - min p10 95.0 / 100) ^ ((1 : ℝ) / 10) with hb
    have hb0 : 0 < b := Real.rpow_pos_of_pos hp1 _
    have hb1 : b ≤ 1 := Real.rpow_le_one hp1.le hp2 (by norm_num)
    have hy : max (85 - a2) 0 ≤ max (85 - a1) 0 := max_le_max (by linarith) le_rfl
    have hpow : b ^ max (85 - a1) 0 ≤ b ^ max (85 - a2) 0 :=
      Real.rpow_le_rpow_of_exponent_ge hb0 hb1 hy
    nlinarith
  · rw [estimate_lifetime_risk_eq]
    have hy : max (85 - age) 0 = (0 : ℝ) := max_eq_right (by linarith)
    rw [hy, Real.rpow_zero]
    norm_num [round1_zero]

/-- Witness for C5 at concrete ages and a concrete 10-year risk. -/
theorem C5_witness :
    ((30:ℝ) ≤ 50 ∧ (50:ℝ) ≤ 70 ∧ (70:ℝ) ≤ 90 ∧ (0:ℝ) ≤ 20 ∧ (20:ℝ) ≤ 95 ∧
      (85:ℝ) ≤ 88) ∧
    (estimate_lifetime_risk 70 20 ≤ estimate_lifetime_risk 50 20 ∧
      estimate_lifetime_risk 88 20 = 0) :=
  ⟨by norm_num,
    C5_lifetime_monotone_age 50 70 88 20 (by norm_num) (by norm_num) (by norm_num)
      (by norm_num) (by norm_num) (by norm_num)⟩

/-! ## C4: the 5-year conversion -/

/-- Counterexample to C4 as stated: p10 = 0.09998 ≥ 0 but
convert_5yr(0.09998) = 0.1 > 0.09998 — rounding up can push the 5-year
risk above a tiny 10-year input. -/
theorem C4_counterexample :
    (0 : ℝ) ≤ 0.09998 ∧ ¬ convert_5yr 0.09998 ≤ 0.09998 := by
  have hmin : min (0.09998 : ℝ) 95.0 = 0.09998 := min_eq_left (by norm_num)
  have hs_eq : ((1 : ℝ) - 0.09998 / 100) ^ (0.5 : ℝ) =
      Real.sqrt (1 - 0.09998 / 100) := by
    rw [Real.sqrt_eq_rpow]
    norm_num
  have hsu : Real.sqrt (1 - 0.09998 / 100) ≤ 0.9995 := by
    rw [Real.sqrt_le_iff]
    constructor <;> norm_num
  have hsl : (0.9985 : ℝ) < Real.sqrt (1 - 0.09998 / 100) := by
    rw [Real.lt_sqrt (by norm_num)]
    norm_num
  have hconv : convert_5yr 0.09998 = 0.1 := by
    rw [convert_5yr_eq, hmin, hs_eq]
    set s : ℝ := Real.sqrt (1 - 0.09998 / 100) with hs
    have hmin2 : min ((1 - s) * 100) 95.0 = (1 - s) * 100 :=
      min_eq_left (by nlinarith)
    rw [hmin2]
    unfold round1
    have hround : round ((10 : ℝ) * ((1 - s) * 100)) = 1 := by
      rw [round_eq]
      have h1 : ((1 : ℤ) : ℝ) ≤ 10 * ((1 - s) * 100) + 1 / 2 := by
        push_cast
        nlinarith
      have h2 : (10 : ℝ) * ((1 - s) * 100) + 1 / 2 < (1 : ℤ) + 1 := by
        push_cast
        nlinarith
      exact Int.floor_eq_iff.mpr ⟨h1, h2⟩
    rw [hround]
    norm_num
  refine ⟨by norm_num, ?_⟩
  rw [hconv]
  norm_num

/-- C4 amended: for every 10-year risk that is a whole non-negative
multiple of 0.1 — in particular every rounded risk `estimate_10y_risk`
produces — the 5-year conversion never exceeds it. -/
theorem C4_amended_convert_le (k : ℕ) :
    convert_5yr ((k : ℝ) / 10) ≤ (k : ℝ) / 10 := by
  rw [convert_5yr_eq]
  have hr0 : (0 : ℝ) ≤ (k : ℝ) / 10 := by positivity
  have hm0 : 0 ≤ min ((k : ℝ) / 10) 95.0 := le_min hr0 (by norm_num)
  have hm95 : min ((k : ℝ) / 10) 95.0 ≤ 95 := by
    have := min_le_right ((k : ℝ) / 10) 95.0
    norm_num at this ⊢
  have hmle : min ((k : ℝ) / 10) 95.0 ≤ (k : ℝ) / 10 := min_le_left _ _
  set p : ℝ := min ((k : ℝ) / 10) 95.0 / 100 with hp
  have hp0 : 0 ≤ p := by positivity
  have hp95 : p ≤ 0.95 := by rw [hp]; linarith
  have hbase : (1 : ℝ) - p ≤ (1 - p) ^ (0.5 : ℝ) := by
    have h1 : ((1 : ℝ) - p) ^ (1 : ℝ) ≤ (1 - p) ^ (0.5 : ℝ) :=
      Real.rpow_le_rpow_of_exponent_ge (by linarith) (by linarith) (by norm_num)
    rwa [Real.rpow_one] at h1
  have hx : min ((1 - (1 - p) ^ (0.5 : ℝ)) * 100) 95.0 ≤ (k : ℝ) / 10 := by
    have h1 : (1 - (1 - p) ^ (0.5 : ℝ)) * 100 ≤ p * 100 := by nlinarith
    have h2 : p * 100 = min ((k : ℝ) / 10) 95.0 := by rw [hp]; ring
    calc min ((1 - (1 - p) ^ (0.5 : ℝ)) * 100) 95.0
        ≤ (1 - (1 - p) ^ (0.5 : ℝ)) * 100 := min_le_left _ _
      _ ≤ p * 100 := h1
      _ = min ((k : ℝ) / 10) 95.0 := h2
      _ ≤ (k : ℝ) / 10 := hmle
  have hfix : round1 ((k : ℝ) / 10) = (k : ℝ) / 10 := by
    have := round1_intdiv (k : ℤ)
    push_cast at this ⊢
    exact this
  calc round1 (min ((1 - (1 - p) ^ (0.5 : ℝ)) * 100) 95.0)
      ≤ round1 ((k : ℝ) / 10) := round1_mono hx
    _ = (k : ℝ) / 10 := hfix

/-! ## C2 and C9: the risk-reduction engine -/

lemma reduce_finalRisk_eq (catalog : List InterventionRecord) (baselineRisk : ℝ)
    (l : List String) (horizon : Horizon) (ldlB ldlF sbpC sbpT : ℝ) :
    (reduce catalog baselineRisk l horizon ldlB ldlF sbpC sbpT).finalRisk =
      round1 (baselineRisk / 100 *
        (l.map (fun i => 1 - arr_for_horizon catalog horizon i / 100)).prod *
        (1 - max (min (22 * (ldlB - ldlF)) 35) 0 / 100) *
        (1 - max (min (15 * ((sbpC - sbpT) / 10)) 20) 0 / 100) * 100) := by
  show round1 _ = round1 _
  rw [foldl_mul_eq]

/-- C2: `reduce` returns the {baselineRisk, finalRisk, arr, rrr} record, and
applying the same interventions in any permutation yields the same
finalRisk, for every catalog, baseline, horizon and LDL/BP inputs. -/
theorem C2_reduce_order_invariant (catalog : List InterventionRecord)
    (baselineRisk : ℝ) (l l' : List String) (horizon : Horizon)
    (ldlB ldlF sbpC sbpT : ℝ) (hperm : l.Perm l') :
    (reduce catalog baselineRisk l horizon ldlB ldlF sbpC sbpT).finalRisk =
      (reduce catalog baselineRisk l' horizon ldlB ldlF sbpC sbpT).finalRisk := by
  rw [reduce_finalRisk_eq, reduce_finalRisk_eq,
    (hperm.map (fun i => 1 - arr_for_horizon catalog horizon i / 100)).prod_eq]

/-- Witness for C2: two concrete permuted intervention lists. -/
theorem C2_witness :
    (["Semaglutide", "Icosapent ethyl"] : List String).Perm
        ["Icosapent ethyl", "Semaglutide"] ∧
    (reduce [⟨"Semaglutide", 2, 1⟩, ⟨"Icosapent ethyl", 3, 2⟩] 20
        ["Semaglutide", "Icosapent ethyl"] Horizon.fiveYr 3.5 1.8 150 120).finalRisk =
      (reduce [⟨"Semaglutide", 2, 1⟩, ⟨"Icosapent ethyl", 3, 2⟩] 20
        ["Icosapent ethyl", "Semaglutide"] Horizon.fiveYr 3.5 1.8 150 120).finalRisk := by
  constructor
  · decide
  · exact C2_reduce_order_invariant [⟨"Semaglutide", 2, 1⟩, ⟨"Icosapent ethyl", 3, 2⟩]
      20 ["Semaglutide", "Icosapent ethyl"] ["Icosapent ethyl", "Semaglutide"]
      Horizon.fiveYr 3.5 1.8 150 120 (by decide)

/-- C9: the engine's RRR is 0 at a zero baseline risk (no division), and
equals arr/baseline·100 rounded to one decimal whenever the baseline is
positive. -/
theorem C9_rrr_zero_baseline (catalog : List InterventionRecord)
    (l : List String) (horizon : Horizon) (ldlB ldlF sbpC sbpT baseline : ℝ) :
    (reduce catalog 0 l horizon ldlB ldlF sbpC sbpT).rrr = 0 ∧
    (0 < baseline →
      (reduce catalog baseline l horizon ldlB ldlF sbpC sbpT).rrr =
        round1 ((reduce catalog baseline l horizon ldlB ldlF sbpC sbpT).arr /
          baseline * 100)) := by
  constructor
  · show (if (0 : ℝ) < 0 then _ else 0) = 0
    norm_num
  · intro hb
    show (if (0 : ℝ) < baseline then _ else _) = _
    rw [if_pos hb]
    rfl

/-- Witness for C9 at a concrete positive baseline. -/
theorem C9_witness :
    (0 : ℝ) < 20 ∧
    ((reduce [] 0 [] Horizon.tenYr 3.5 1.8 150 120).rrr = 0 ∧
      (reduce [] 20 [] Horizon.tenYr 3.5 1.8 150 120).rrr =
        round1 ((reduce [] 20 [] Horizon.tenYr 3.5 1.8 150 120).arr / 20 * 100)) := by
  refine ⟨by norm_num, ?_, ?_⟩
  · exact (C9_rrr_zero_baseline [] [] Horizon.tenYr 3.5 1.8 150 120 20).1
  · exact (C9_rrr_zero_baseline [] [] Horizon.tenYr 3.5 1.8 150 120 20).2 (by norm_num)

/-! ## C8: input handling -/

/-- Counterexample to C8 as stated: a 10-year risk input of 200, far above
the 95 bound, is not rejected with an error — both conversion functions
silently clamp it to 95 and return a normal value. -/
theorem C8_counterexample :
    convert_5yr 200 = convert_5yr 95 ∧
    estimate_lifetime_risk 60 200 = estimate_lifetime_risk 60 95 := by
  have h200 : min (200 : ℝ) 95.0 = 95.0 := min_eq_right (by norm_num)
  have h95 : min (95 : ℝ) 95.0 = 95.0 := min_eq_right (by norm_num)
  constructor
  · rw [convert_5yr_eq, convert_5yr_eq, h200, h95]
  · rw [estimate_lifetime_risk_eq, estimate_lifetime_risk_eq, h200, h95]

/-- C8 amended: the core conversion functions never fail on out-of-range
input; any 10-year-risk argument at or above 95 is silently clamped to 95
before conversion, so inputs are clamped, not rejected. -/
theorem C8_amended_silent_clamp (r10 age : ℝ) (h : 95 ≤ r10) :
    convert_5yr r10 = convert_5yr 95 ∧
    estimate_lifetime_risk age r10 = estimate_lifetime_risk age 95 := by
  have hr : min r10 95.0 = 95.0 := min_eq_right (by norm_num; linarith)
  have h95 : min (95 : ℝ) 95.0 = 95.0 := min_eq_right (by norm_num)
  constructor
  · rw [convert_5yr_eq, convert_5yr_eq, hr, h95]
  · rw [estimate_lifetime_risk_eq, estimate_lifetime_risk_eq, hr, h95]

/-- Witness for the amended C8 at a concrete out-of-range input. -/
theorem C8_amended_witness :
    (95 : ℝ) ≤ 120 ∧
    (convert_5yr 120 = convert_5yr 95 ∧
      estimate_lifetime_risk 40 120 = estimate_lifetime_risk 40 95) :=
  ⟨by norm_num, C8_amended_silent_clamp 120 40 (by norm_num)⟩
